import Mathlib

/-!
Shallow embedding of the clinic knowledge-base bot (`bot.py`): the content
item data model, row conversion from the tabular source, the TTL cache, the
search engine, the phone formatter, the menu renderer, the per-session
navigation back transition, and the throttle-retry wrappers around the
outbound transport.  Each definition mirrors the Python function it is named
after; machine-level effects (clock, transport) are passed explicitly.
-/

/-- Content types of a menu item (`ContentType` enum in the source). -/
inductive ContentType where
  | TEXT
  | PHONE
  | MENU
  | SUBMENU
  | LINK
  | EMAIL
deriving DecidableEq, Repr

/-- Conversion of the raw `contentType` column string; in the source this is
`ContentType(content_type_str)` with a `ValueError` handler that falls back
to `ContentType.TEXT`. -/
def parseContentType (s : String) : ContentType :=
  if s = "text" then ContentType.TEXT
  else if s = "phone" then ContentType.PHONE
  else if s = "menu" then ContentType.MENU
  else if s = "submenu" then ContentType.SUBMENU
  else if s = "link" then ContentType.LINK
  else if s = "email" then ContentType.EMAIL
  else ContentType.TEXT

/-- One node of the content tree (`MenuItem` dataclass). -/
structure MenuItem where
  callback_data : String
  parent : String
  text : String
  data : String := ""
  content_type : ContentType := ContentType.TEXT
  extra : String := ""
deriving DecidableEq, Repr

/-- Python's `str.strip()`: removes leading and trailing whitespace. -/
def pyStrip (s : String) : String :=
  ⟨((s.data.dropWhile Char.isWhitespace).reverse.dropWhile Char.isWhitespace).reverse⟩

/-- `MenuItem.from_row`: builds an item from one sheet row, or nothing when
the row has fewer than 3 fields or a blank id / display text. -/
def MenuItem.from_row (row : List String) : Option MenuItem :=
  if row.length < 3 then none
  else
    let callback_data := pyStrip (row.getD 0 "")
    let parent := pyStrip (row.getD 1 "")
    let text := pyStrip (row.getD 2 "")
    if callback_data = "" ∨ text = "" then none
    else
      let data := if 3 < row.length then pyStrip (row.getD 3 "") else ""
      let content_type_str := if 4 < row.length then pyStrip (row.getD 4 "") else "text"
      let extra := if 5 < row.length then pyStrip (row.getD 5 "") else ""
      some { callback_data := callback_data, parent := parent, text := text,
             data := data, content_type := parseContentType content_type_str,
             extra := extra }

/-- The blank-row guard of `GoogleSheetsManager.fetch_data`:
`not row or not any(cell.strip() for cell in row)`. -/
def blankRow (row : List String) : Bool :=
  row.isEmpty || !(row.any (fun cell => !(pyStrip cell == "")))

/-- The row loop of `GoogleSheetsManager.fetch_data` over the rows after the
header: skips blank rows, keeps successful conversions. -/
def processRows : List (List String) → List MenuItem
  | [] => []
  | row :: rest =>
    if blankRow row then processRows rest
    else
      match MenuItem.from_row row with
      | some item => item :: processRows rest
      | none => processRows rest

/-- `GoogleSheetsManager.fetch_data` applied to the raw cell grid: the
iteration starts at `raw_data[1:]`, skipping the header row. -/
def fetch_data (raw_data : List (List String)) : List MenuItem :=
  processRows (raw_data.drop 1)

/-- The TTL cache over the item collection (`DataCache`).  Timestamps are
integers standing for the seconds clock read by `time.time()`. -/
structure DataCache where
  cache_duration : Int
  last_update : Option Int
  data : List MenuItem
deriving DecidableEq, Repr

/-- `DataCache.is_valid` at clock reading `now`. -/
def DataCache.is_valid (cache : DataCache) (now : Int) : Bool :=
  match cache.last_update with
  | none => false
  | some t => now - t < cache.cache_duration

/-- `DataCache.update`: stores a freshly fetched collection and the time. -/
def DataCache.update (cache : DataCache) (data : List MenuItem) (now : Int) : DataCache :=
  { cache with data := data, last_update := some now }

/-- `DataCache.clear`: drops the stored collection and timestamp. -/
def DataCache.clear (cache : DataCache) : DataCache :=
  { cache with data := [], last_update := none }

/-- `ClinicBot.get_menu_data`: serves from the cache when it is valid and no
refresh is forced; otherwise fetches (here: the `fetched` argument stands for
the rows delivered by the external source) and updates the cache.  The third
component records whether the external source was contacted. -/
def get_menu_data (cache : DataCache) (force_refresh : Bool) (now : Int)
    (fetched : List MenuItem) : List MenuItem × DataCache × Bool :=
  if force_refresh || !(cache.is_valid now) then
    let cache' := cache.update fetched now
    (cache'.data, cache', true)
  else
    (cache.data, cache, false)

/-- Lower-casing of one character as Python `str.lower` acts on the ASCII
and Cyrillic letters the bot's content uses; all other characters are kept. -/
def pyLowerChar (c : Char) : Char :=
  if 'A' ≤ c ∧ c ≤ 'Z' then Char.ofNat (c.toNat + 32)
  else if 'А' ≤ c ∧ c ≤ 'Я' then Char.ofNat (c.toNat + 32)
  else if c = 'Ё' then 'ё'
  else c

/-- Lower-casing of a string (`str.lower`). -/
def pyLower (s : String) : String :=
  ⟨s.data.map pyLowerChar⟩

/-- Whether `needle` starts `hay` (character lists). -/
def isPrefixList : List Char → List Char → Bool
  | [], _ => true
  | _ :: _, [] => false
  | a :: as, b :: bs => a == b && isPrefixList as bs

/-- Whether `needle` occurs contiguously inside `hay` (character lists);
the meaning of Python's `needle in hay` on strings. -/
def substrAt (needle : List Char) : List Char → Bool
  | [] => needle.isEmpty
  | c :: rest => isPrefixList needle (c :: rest) || substrAt needle rest

/-- Python's `needle in hay` for strings. -/
def strContains (hay needle : String) : Bool :=
  substrAt needle.data hay.data

/-- The matching loop of `ClinicBot._search_items`, already given the
lower-cased query: an `if`/`elif` chain over text, data and extra, appending
a matching item once. -/
def searchLoop (search_lower : String) : List MenuItem → List MenuItem
  | [] => []
  | item :: rest =>
    if strContains (pyLower item.text) search_lower then
      item :: searchLoop search_lower rest
    else if strContains (pyLower item.data) search_lower then
      item :: searchLoop search_lower rest
    else if strContains (pyLower item.extra) search_lower then
      item :: searchLoop search_lower rest
    else
      searchLoop search_lower rest

/-- `ClinicBot._search_items`. -/
def search_items (items : List MenuItem) (search_text : String) : List MenuItem :=
  searchLoop (pyLower search_text) items

/-- `ClinicBot._find_menu_item`: first item with the given callback id. -/
def find_menu_item (items : List MenuItem) (callback_data : String) : Option MenuItem :=
  items.find? (fun item => item.callback_data == callback_data)

/-- Normalization of the phone digits inside `MessageFormatter.format_phone`:
`re.sub(r'\D', '', phone)` followed by
`if formatted_phone.startswith('8'): formatted_phone = '7' + formatted_phone[1:]`. -/
def normalizePhone (phone : String) : String :=
  let formatted_phone := phone.data.filter Char.isDigit
  if formatted_phone.head? = some '8' then ⟨'7' :: formatted_phone.tail⟩
  else ⟨formatted_phone⟩

/-- Stated from the spec's words: "the payload with all non-digit characters
stripped and a leading digit `8` rewritten to `7`" — to be compared with the
source's `normalizePhone`. -/
def specNormalizePhone (phone : String) : String :=
  match phone.data.filter Char.isDigit with
  | [] => ⟨[]⟩
  | c :: rest => if c = '8' then ⟨'7' :: rest⟩ else ⟨c :: rest⟩

/-- `MessageFormatter.format_phone`. -/
def format_phone (text phone extra : String) : String :=
  let formatted_phone := normalizePhone phone
  let message := text ++ "\n\n📞 <a href='tel:+" ++ formatted_phone ++ "'>" ++ phone ++ "</a>"
  if extra = "" then message else message ++ "\n\n💡 " ++ extra

/-- One inline button handed to the transport. -/
structure InlineKeyboardButton where
  text : String
  callback_data : String
deriving DecidableEq, Repr

/-- `ClinicBot._show_menu`: collects the children of the parent item, and
when there are any, produces the message text and the keyboard — one button
per child, then the navigation row.  Returns nothing when there are no
children (the source falls through to `_show_text_content` there). -/
def show_menu (parent_item : MenuItem) (menu_data : List MenuItem) (is_main : Bool) :
    Option (String × List (List InlineKeyboardButton)) :=
  let children := menu_data.filter (fun item => item.parent == parent_item.callback_data)
  if children.isEmpty then none
  else
    let keyboard := children.map (fun child =>
      [InlineKeyboardButton.mk child.text child.callback_data])
    let nav_buttons :=
      (if !is_main then [InlineKeyboardButton.mk "⬅️ Назад" "back"] else []) ++
      [InlineKeyboardButton.mk "🏠 Главное меню" "main_menu",
       InlineKeyboardButton.mk "🔄 Обновить" "refresh"]
    let text := parent_item.text ++ (if parent_item.data = "" then "" else "\n\n" ++ parent_item.data)
    some (text, keyboard ++ [nav_buttons])

/-- The callback ids carried by a keyboard, row by row. -/
def keyboardCallbacks (keyboard : List (List InlineKeyboardButton)) : List (List String) :=
  keyboard.map (fun row => row.map (fun b => b.callback_data))

/-- Which renderer `ClinicBot._show_item_content` dispatches to. -/
inductive RenderKind where
  | menuContent (is_main : Bool)
  | phoneContent
  | linkContent
  | textContent
deriving DecidableEq, Repr

/-- The dispatch of `ClinicBot._show_item_content` on the content type; the
final `else` branch renders plain text. -/
def show_item_content (item : MenuItem) : RenderKind :=
  if item.content_type = ContentType.MENU then RenderKind.menuContent true
  else if item.content_type = ContentType.SUBMENU then RenderKind.menuContent false
  else if item.content_type = ContentType.PHONE then RenderKind.phoneContent
  else if item.content_type = ContentType.LINK then RenderKind.linkContent
  else RenderKind.textContent

/-- What the back handler renders. -/
inductive RenderTarget where
  | mainMenu
  | itemContent (item : MenuItem)
deriving DecidableEq, Repr

/-- `ClinicBot._handle_back_button` acting on the session's navigation stack
(last element is the top): at depth below 2 it shows the main menu and
returns; otherwise it pops the current id, looks at the new top and renders
its item, falling back to the main menu when the id does not resolve.
Returns the stack left behind and the rendered target. -/
def handle_back_button (nav_stack : List String) (menu_data : List MenuItem) :
    List String × RenderTarget :=
  if nav_stack.length < 2 then (nav_stack, RenderTarget.mainMenu)
  else
    let nav_stack' := nav_stack.dropLast
    match nav_stack'.getLast? with
    | some previous_id =>
      match find_menu_item menu_data previous_id with
      | some previous_item => (nav_stack', RenderTarget.itemContent previous_item)
      | none => (nav_stack', RenderTarget.mainMenu)
    | none => (nav_stack', RenderTarget.mainMenu)

/-- One transport response to a send attempt: success, a rate-limit signal
carrying a wait duration, or another transport error. -/
inductive SendOutcome where
  | ok
  | retryAfter (seconds : Nat)
  | telegramError
deriving DecidableEq, Repr

/-- `ClinicBot._safe_send_message` driven by the sequence of transport
responses its successive attempts receive.  Mirrors the handler chain: on
success the message object is returned; on `RetryAfter` the task sleeps the
signalled duration and the function calls itself again; on any other error
it logs and returns `None`.  Result: (attempts made, waits slept, delivered). -/
def safe_send_message : List SendOutcome → Nat × List Nat × Bool
  | [] => (0, [], false)
  | SendOutcome.ok :: _ => (1, [], true)
  | SendOutcome.telegramError :: _ => (1, [], false)
  | SendOutcome.retryAfter s :: rest =>
    let r := safe_send_message rest
    (r.1 + 1, s :: r.2.1, r.2.2)

/-- One transport response to an edit attempt. -/
inductive EditOutcome where
  | ok
  | badRequest (message : String)
  | retryAfter (seconds : Nat)
  | telegramError
deriving DecidableEq, Repr

/-- `ClinicBot._safe_edit_message` driven by the transport responses: a
`BadRequest` is success exactly when it says the message is not modified;
`RetryAfter` sleeps and recurses; other errors return failure. -/
def safe_edit_message : List EditOutcome → Nat × List Nat × Bool
  | [] => (0, [], false)
  | EditOutcome.ok :: _ => (1, [], true)
  | EditOutcome.badRequest msg :: _ =>
    (1, [], strContains (pyLower msg) "message is not modified")
  | EditOutcome.retryAfter s :: rest =>
    let r := safe_edit_message rest
    (r.1 + 1, s :: r.2.1, r.2.2)
  | EditOutcome.telegramError :: _ => (1, [], false)

/-- C1: at stack depth below 2 the back handler renders the root menu at an
unchanged, non-empty stack — refuting at depth 1 the claim that the stack is
cleared (empty afterward). -/
theorem back_low_depth_stack_cleared_cex :
    handle_back_button ["a"] [] = (["a"], RenderTarget.mainMenu) ∧
    (handle_back_button ["a"] []).1 ≠ ([] : List String) := by
  refine ⟨rfl, ?_⟩
  decide

/-- C1 (amended): performing the back transition when the navigation stack
holds fewer than 2 entries leaves the stack exactly as it was — it is not
cleared — and renders the root menu. -/
theorem back_low_depth_renders_root_stack_unchanged
    (nav_stack : List String) (menu_data : List MenuItem)
    (h : nav_stack.length < 2) :
    handle_back_button nav_stack menu_data = (nav_stack, RenderTarget.mainMenu) := by
  simp [handle_back_button, h]

/-- Witness for the amended C1 at the concrete stack `["a"]`. -/
theorem back_low_depth_renders_root_witness :
    (["a"] : List String).length < 2 ∧
    handle_back_button ["a"] [] = (["a"], RenderTarget.mainMenu) :=
  ⟨by decide, back_low_depth_renders_root_stack_unchanged ["a"] [] (by decide)⟩

/-- C2: the send wrapper, throttled twice and then allowed through, makes a
third attempt and delivers — refuting the claim that after a second throttle
it gives up (at most two attempts, no delivery). -/
theorem throttle_retry_bounded_cex :
    safe_send_message [SendOutcome.retryAfter 1, SendOutcome.retryAfter 2, SendOutcome.ok]
      = (3, [1, 2], true) ∧
    ¬ (safe_send_message [SendOutcome.retryAfter 1, SendOutcome.retryAfter 2,
        SendOutcome.ok]).1 ≤ 2 := by
  refine ⟨rfl, ?_⟩
  decide

/-- C2 (amended): when an outbound send or edit is throttled, the operation
waits each signalled duration and retries again after every consecutive
throttle signal — the wait-and-retry recursion is not bounded to a single
retry — and completes once a non-throttle outcome arrives. -/
theorem throttle_retry_every_signal (waits : List Nat) (rest : List SendOutcome)
    (erest : List EditOutcome) :
    safe_send_message (waits.map SendOutcome.retryAfter ++ SendOutcome.ok :: rest)
      = (waits.length + 1, waits, true) ∧
    safe_edit_message (waits.map EditOutcome.retryAfter ++ EditOutcome.ok :: erest)
      = (waits.length + 1, waits, true) := by
  induction waits with
  | nil => exact ⟨rfl, rfl⟩
  | cons w ws ih =>
    refine ⟨?_, ?_⟩ <;>
      simp [safe_send_message, safe_edit_message, ih.1, ih.2]

/-- C9: at stack depth at least 2 the back handler removes exactly the top
entry — the remaining stack is the original without its last element, one
entry shorter — whether or not the new top id resolves to an item. -/
theorem back_pops_exactly_top
    (nav_stack : List String) (menu_data : List MenuItem)
    (h : 2 ≤ nav_stack.length) :
    (handle_back_button nav_stack menu_data).1 = nav_stack.dropLast ∧
    (handle_back_button nav_stack menu_data).1.length + 1 = nav_stack.length := by
  have hn : ¬ nav_stack.length < 2 := by omega
  have hfst : (handle_back_button nav_stack menu_data).1 = nav_stack.dropLast := by
    unfold handle_back_button
    rw [if_neg hn]
    cases hget : nav_stack.dropLast.getLast? with
    | none => simp [hget]
    | some pid => cases hf : find_menu_item menu_data pid <;> simp [hget, hf]
  refine ⟨hfst, ?_⟩
  rw [hfst, List.length_dropLast]
  omega

/-- Witness for C9 at the stack `["a", "b"]` over an empty snapshot, where
the new top does not resolve and the rendering falls back to the root menu. -/
theorem back_pops_exactly_top_witness :
    2 ≤ (["a", "b"] : List String).length ∧
    ((handle_back_button ["a", "b"] []).1 = (["a", "b"] : List String).dropLast ∧
     (handle_back_button ["a", "b"] []).1.length + 1 = (["a", "b"] : List String).length) :=
  ⟨by decide, back_pops_exactly_top ["a", "b"] [] (by decide)⟩

/-- C3: rendering the root item `root1` (content type menu, one child) puts a
`main_menu` action next to the per-child action and `refresh` — refuting the
claim that one action per child plus `refresh` are the only controls. -/
theorem menu_controls_cex :
    Option.map (fun r => keyboardCallbacks r.2)
      (show_menu (MenuItem.mk "root1" "" "Клиника" "" ContentType.MENU "")
        [MenuItem.mk "root1" "" "Клиника" "" ContentType.MENU "",
         MenuItem.mk "c1" "root1" "Контакты" "+7 999 123 4567" ContentType.PHONE ""] true)
      = some [["c1"], ["main_menu", "refresh"]] ∧
    "main_menu" ∉ (["c1", "refresh"] : List String) := by
  refine ⟨rfl, ?_⟩
  decide

/-- C3 (amended): for every item of content type menu (root) with at least
one child in the snapshot, the rendered control set is exactly one selectable
action per child plus a `main_menu` (root) action and a `refresh` action. -/
theorem menu_controls_children_root_refresh
    (parent_item : MenuItem) (menu_data : List MenuItem)
    (h : menu_data.filter (fun item => item.parent == parent_item.callback_data) ≠ []) :
    Option.map (fun r => keyboardCallbacks r.2) (show_menu parent_item menu_data true)
      = some ((menu_data.filter (fun item => item.parent == parent_item.callback_data)).map
          (fun child => [child.callback_data]) ++ [["main_menu", "refresh"]]) := by
  have hne : (menu_data.filter
      (fun item => item.parent == parent_item.callback_data)).isEmpty = false := by
    simpa [List.isEmpty_iff] using h
  simp [show_menu, hne, keyboardCallbacks, List.map_append, List.map_map]

/-- Witness for the amended C3 at the two-item snapshot from the spec's
scenario. -/
theorem menu_controls_children_root_refresh_witness :
    ([MenuItem.mk "root1" "" "Клиника" "" ContentType.MENU "",
      MenuItem.mk "c1" "root1" "Контакты" "+7 999 123 4567" ContentType.PHONE ""].filter
        (fun item => item.parent ==
          (MenuItem.mk "root1" "" "Клиника" "" ContentType.MENU "").callback_data) ≠ []) ∧
    Option.map (fun r => keyboardCallbacks r.2)
      (show_menu (MenuItem.mk "root1" "" "Клиника" "" ContentType.MENU "")
        [MenuItem.mk "root1" "" "Клиника" "" ContentType.MENU "",
         MenuItem.mk "c1" "root1" "Контакты" "+7 999 123 4567" ContentType.PHONE ""] true)
      = some (([MenuItem.mk "root1" "" "Клиника" "" ContentType.MENU "",
          MenuItem.mk "c1" "root1" "Контакты" "+7 999 123 4567" ContentType.PHONE ""].filter
            (fun item => item.parent ==
              (MenuItem.mk "root1" "" "Клиника" "" ContentType.MENU "").callback_data)).map
          (fun child => [child.callback_data]) ++ [["main_menu", "refresh"]]) :=
  ⟨by decide,
   menu_controls_children_root_refresh
     (MenuItem.mk "root1" "" "Клиника" "" ContentType.MENU "")
     [MenuItem.mk "root1" "" "Клиника" "" ContentType.MENU "",
      MenuItem.mk "c1" "root1" "Контакты" "+7 999 123 4567" ContentType.PHONE ""]
     (by decide)⟩

/-- C4: a `get` without forced refresh serves the cached snapshot untouched,
with no fetch, exactly while the cache is valid; once the TTL has elapsed, or
after `clear` (which empties the stored snapshot and timestamp), the next
`get` fetches the fresh snapshot and records the fetch time. -/
theorem cache_ttl_contract :
    (∀ (cache : DataCache) (now : Int) (fetched : List MenuItem),
      cache.is_valid now = true →
      get_menu_data cache false now fetched = (cache.data, cache, false)) ∧
    (∀ (cache : DataCache) (now t : Int) (fetched : List MenuItem),
      cache.last_update = some t → cache.cache_duration ≤ now - t →
      get_menu_data cache false now fetched
          = (fetched, DataCache.update cache fetched now, true) ∧
        (DataCache.update cache fetched now).last_update = some now) ∧
    (∀ (cache : DataCache) (now : Int) (fetched : List MenuItem),
      (DataCache.clear cache).data = [] ∧ (DataCache.clear cache).last_update = none ∧
      get_menu_data (DataCache.clear cache) false now fetched
        = (fetched, DataCache.update (DataCache.clear cache) fetched now, true)) := by
  refine ⟨?_, ?_, ?_⟩
  · intro cache now fetched hv
    simp [get_menu_data, hv]
  · intro cache now t fetched hlast hdur
    have hv : cache.is_valid now = false := by
      simp [DataCache.is_valid, hlast]
      omega
    refine ⟨?_, rfl⟩
    simp [get_menu_data, hv, DataCache.update]
  · intro cache now fetched
    refine ⟨rfl, rfl, ?_⟩
    simp [get_menu_data, DataCache.is_valid, DataCache.clear, DataCache.update]

/-- Witness for C4: a valid cache is served unchanged at clock 10, and an
expired cache (TTL 3600, fetched at 0, read at 5000) triggers a fetch. -/
theorem cache_ttl_contract_witness :
    ((DataCache.mk 3600 (some 0) []).is_valid 10 = true ∧
     get_menu_data (DataCache.mk 3600 (some 0) []) false 10 []
       = ((DataCache.mk 3600 (some 0) []).data, DataCache.mk 3600 (some 0) [], false)) ∧
    ((DataCache.mk 3600 (some 0) []).last_update = some 0 ∧
     (3600 : Int) ≤ 5000 - 0 ∧
     get_menu_data (DataCache.mk 3600 (some 0) []) false 5000 []
         = ([], DataCache.update (DataCache.mk 3600 (some 0) []) [] 5000, true) ∧
       (DataCache.update (DataCache.mk 3600 (some 0) []) [] 5000).last_update = some 5000) :=
  ⟨⟨by decide, cache_ttl_contract.1 (DataCache.mk 3600 (some 0) []) 10 [] (by decide)⟩,
   ⟨rfl, by decide,
    cache_ttl_contract.2.1 (DataCache.mk 3600 (some 0) []) 5000 0 [] rfl (by decide)⟩⟩

/-- The search loop is the filter by the three-field substring predicate. -/
theorem searchLoop_eq_filter (search_lower : String) (l : List MenuItem) :
    searchLoop search_lower l = l.filter (fun item =>
      strContains (pyLower item.text) search_lower ||
      strContains (pyLower item.data) search_lower ||
      strContains (pyLower item.extra) search_lower) := by
  induction l with
  | nil => rfl
  | cons item rest ih =>
    cases h1 : strContains (pyLower item.text) search_lower <;>
      cases h2 : strContains (pyLower item.data) search_lower <;>
        cases h3 : strContains (pyLower item.extra) search_lower <;>
          simp [searchLoop, List.filter, h1, h2, h3, ih]

/-- C5: search returns exactly the items whose lower-cased text, data or
extra field contains the lower-cased query as a substring — any one match
suffices — and, being a filter of the snapshot, keeps snapshot order. -/
theorem search_matches_filter (items : List MenuItem) (search_text : String) :
    search_items items search_text = items.filter (fun item =>
      strContains (pyLower item.text) (pyLower search_text) ||
      strContains (pyLower item.data) (pyLower search_text) ||
      strContains (pyLower item.extra) (pyLower search_text)) := by
  unfold search_items
  exact searchLoop_eq_filter (pyLower search_text) items

/-- C10: the search result is a sublist of the snapshot, so every snapshot
occurrence contributes at most one result entry even when the query matches
several of its fields. -/
theorem search_result_sublist (items : List MenuItem) (search_text : String) :
    (search_items items search_text).Sublist items ∧
    ∀ item : MenuItem, (search_items items search_text).count item ≤ items.count item := by
  have hs : (search_items items search_text).Sublist items := by
    unfold search_items
    rw [searchLoop_eq_filter]
    exact List.filter_sublist items
  exact ⟨hs, fun item => hs.count_le item⟩

/-- A list starts with itself, whatever follows. -/
theorem isPrefixList_self_append (n y : List Char) : isPrefixList n (n ++ y) = true := by
  induction n with
  | nil => rfl
  | cons a as ih => simp [isPrefixList, ih]

/-- A list occurs at the front of itself followed by anything. -/
theorem substrAt_self_append (n y : List Char) : substrAt n (n ++ y) = true := by
  cases n with
  | nil => cases y <;> simp [substrAt, isPrefixList]
  | cons a as =>
    have h := isPrefixList_self_append (a :: as) y
    simp only [List.cons_append] at h ⊢
    simp [substrAt, h]

/-- An occurrence survives prepending on the left. -/
theorem substrAt_append_left (n h x : List Char) (hh : substrAt n h = true) :
    substrAt n (x ++ h) = true := by
  induction x with
  | nil => simpa using hh
  | cons c cs ih => simp [substrAt, ih]

/-- A concatenation `a ++ b` occurs inside any surrounding of it. -/
theorem substrAt_embedded (a b t l r : List Char) :
    substrAt (a ++ b) (t ++ (l ++ (a ++ (b ++ r)))) = true := by
  have h : t ++ (l ++ (a ++ (b ++ r))) = (t ++ l) ++ ((a ++ b) ++ r) := by
    simp [List.append_assoc]
  rw [h]
  exact substrAt_append_left _ _ _ (substrAt_self_append _ _)

/-- The source's digit normalization is the spec's described rewrite. -/
theorem normalizePhone_eq_spec (phone : String) :
    normalizePhone phone = specNormalizePhone phone := by
  simp only [normalizePhone, specNormalizePhone]
  generalize phone.data.filter Char.isDigit = digits
  cases digits with
  | nil => rfl
  | cons c rest =>
    by_cases hc : c = '8'
    · subst hc; simp
    · simp [hc]

/-- C6: the phone rendering always contains the contact reference `tel:+`
followed by the payload normalized as the spec describes — non-digits
stripped, a leading `8` rewritten to `7` — and on the spec's example payload
it contains `tel:+79991234567`. -/
theorem phone_reference_normalized :
    (∀ text phone extra : String,
      strContains (format_phone text phone extra)
        ("tel:+" ++ specNormalizePhone phone) = true) ∧
    strContains (format_phone "Контакты" "+7 999 123 4567" "") "tel:+79991234567" = true := by
  constructor
  · intro text phone extra
    rw [← normalizePhone_eq_spec]
    unfold format_phone strContains
    rw [show ("\n\n📞 <a href='tel:+" : String) = "\n\n📞 <a href='" ++ "tel:+" from by decide]
    by_cases he : extra = "" <;>
      · simp only [he, if_true, if_false, ite_true, ite_false, String.data_append,
          List.append_assoc, reduceIte]
        exact substrAt_embedded _ _ _ _ _
  · decide

/-- Unfolding of `MenuItem.from_row` with its local bindings substituted. -/
theorem from_row_eq (row : List String) :
    MenuItem.from_row row =
      if row.length < 3 then none
      else if pyStrip (row.getD 0 "") = "" ∨ pyStrip (row.getD 2 "") = "" then none
      else some { callback_data := pyStrip (row.getD 0 ""),
                  parent := pyStrip (row.getD 1 ""),
                  text := pyStrip (row.getD 2 ""),
                  data := if 3 < row.length then pyStrip (row.getD 3 "") else "",
                  content_type := parseContentType
                    (if 4 < row.length then pyStrip (row.getD 4 "") else "text"),
                  extra := if 5 < row.length then pyStrip (row.getD 5 "") else "" } := rfl

/-- A row whose cells all strip to nothing (or which is empty) fails row
conversion: either it has fewer than 3 fields or its id strips to empty. -/
theorem from_row_of_blank (row : List String) (hb : blankRow row = true) :
    MenuItem.from_row row = none := by
  rw [from_row_eq]
  by_cases h3 : row.length < 3
  · rw [if_pos h3]
  · have hall : ∀ cell ∈ row, pyStrip cell = "" := by
      simp only [blankRow, Bool.or_eq_true, List.isEmpty_iff, Bool.not_eq_true',
        List.any_eq_false, Bool.not_eq_false, beq_iff_eq] at hb
      rcases hb with h | h
      · subst h
        simp at h3
      · exact h
    have h0 : pyStrip (row.getD 0 "") = "" := by
      have hlt : 0 < row.length := by omega
      rw [List.getD_eq_getElem _ _ hlt]
      exact hall _ (List.getElem_mem hlt)
    rw [if_neg h3, if_pos (Or.inl h0)]

/-- The fetch loop keeps exactly the successful row conversions, in order. -/
theorem processRows_eq_filterMap (l : List (List String)) :
    processRows l = l.filterMap MenuItem.from_row := by
  induction l with
  | nil => rfl
  | cons row rest ih =>
    by_cases hb : blankRow row = true
    · simp [processRows, hb, ih, List.filterMap_cons, from_row_of_blank row hb]
    · cases hf : MenuItem.from_row row <;>
        simp [processRows, hb, hf, ih, List.filterMap_cons]

/-- C7: a row converts to an item exactly when it has at least 3 fields and
its id and display text are non-empty after trimming; snapshot building
skips row 0 as the header and is the ordered collection of the successful
conversions of the remaining rows — failing rows are dropped, never an
error. -/
theorem row_conversion_contract :
    (∀ row : List String,
      (MenuItem.from_row row).isSome = true ↔
        (3 ≤ row.length ∧ pyStrip (row.getD 0 "") ≠ "" ∧ pyStrip (row.getD 2 "") ≠ "")) ∧
    (∀ raw_data : List (List String),
      fetch_data raw_data = (raw_data.drop 1).filterMap MenuItem.from_row) := by
  constructor
  · intro row
    rw [from_row_eq]
    by_cases h3 : row.length < 3
    · have h3' : ¬ 3 ≤ row.length := by omega
      simp [h3, h3']
    · have h3' : 3 ≤ row.length := by omega
      by_cases hcb : pyStrip (row.getD 0 "") = ""
      · simp [h3, h3', hcb]
      · by_cases htx : pyStrip (row.getD 2 "") = ""
        · simp [h3, h3', hcb, htx]
        · simp [h3, h3', hcb, htx]
  · intro raw_data
    unfold fetch_data
    exact processRows_eq_filterMap (raw_data.drop 1)

/-- C8: when the content-type field of a row (defaulting to "text" when the
row is short) is not one of the six recognized strings, the converted item
carries content type TEXT and the content dispatcher renders it as plain
text. -/
theorem unrecognized_type_renders_text
    (row : List String) (item : MenuItem)
    (hct : (if 4 < row.length then pyStrip (row.getD 4 "") else "text")
        ∉ ["text", "phone", "menu", "submenu", "link", "email"])
    (hrow : MenuItem.from_row row = some item) :
    item.content_type = ContentType.TEXT ∧
    show_item_content item = RenderKind.textContent := by
  have hne := hct
  simp only [List.mem_cons, List.not_mem_nil, or_false, not_or] at hne
  obtain ⟨n1, n2, n3, n4, n5, n6⟩ := hne
  rw [from_row_eq] at hrow
  by_cases h3 : row.length < 3
  · rw [if_pos h3] at hrow
    exact absurd hrow (by simp)
  · rw [if_neg h3] at hrow
    by_cases hempty : pyStrip (row.getD 0 "") = "" ∨ pyStrip (row.getD 2 "") = ""
    · rw [if_pos hempty] at hrow
      exact absurd hrow (by simp)
    · rw [if_neg hempty] at hrow
      have hitem := (Option.some.inj hrow).symm
      have hctype : item.content_type = ContentType.TEXT := by
        rw [hitem]
        show parseContentType
          (if 4 < row.length then pyStrip (row.getD 4 "") else "text") = ContentType.TEXT
        unfold parseContentType
        rw [if_neg n1, if_neg n2, if_neg n3, if_neg n4, if_neg n5, if_neg n6]
      exact ⟨hctype, by simp [show_item_content, hctype]⟩

/-- Witness for C8 at a row whose fifth column holds the unrecognized
content type "foo". -/
theorem unrecognized_type_renders_text_witness :
    ((if 4 < (["id", "", "Имя", "", "foo"] : List String).length
        then pyStrip ((["id", "", "Имя", "", "foo"] : List String).getD 4 "") else "text")
      ∉ ["text", "phone", "menu", "submenu", "link", "email"]) ∧
    MenuItem.from_row ["id", "", "Имя", "", "foo"]
      = some (MenuItem.mk "id" "" "Имя" "" ContentType.TEXT "") ∧
    ((MenuItem.mk "id" "" "Имя" "" ContentType.TEXT "").content_type = ContentType.TEXT ∧
     show_item_content (MenuItem.mk "id" "" "Имя" "" ContentType.TEXT "")
       = RenderKind.textContent) :=
  ⟨by decide, by decide,
   unrecognized_type_renders_text ["id", "", "Имя", "", "foo"]
     (MenuItem.mk "id" "" "Имя" "" ContentType.TEXT "") (by decide) (by decide)⟩
